import Mathlib

/-!
Verification of the newsletter generator's content-normalization and
image-selection subsystems, shallowly embedded from the Python source
(src/newsletter/content.py, src/newsletter/images/providers.py,
src/newsletter/images/selector.py, src/newsletter/cli.py).
-/

namespace Newsletter

/-- JSON/YAML-style dynamic values as produced by `json.loads` / `yaml.safe_load`
and manipulated by `load_content`. Models the Python values None, bool, int,
str, list, dict. (Floats are out of scope for this development.) -/
inductive Value where
  | null : Value
  | bool (b : Bool) : Value
  | num (n : Int) : Value
  | str (s : String) : Value
  | list (xs : List Value) : Value
  | dict (kvs : List (String × Value)) : Value

/-- Python truthiness for the modelled values: None, False, 0, "", [] and
an empty dict are falsy, everything else truthy. -/
def truthy : Value → Bool
  | .null => false
  | .bool b => b
  | .num n => n != 0
  | .str s => s != ""
  | .list xs => !xs.isEmpty
  | .dict kvs => !kvs.isEmpty

/-- A parsed top-level document: a Python dict with string keys.
Keys are unique in a Python dict; lookup takes the first binding. -/
abbrev Doc := List (String × Value)

/-- `d[k]` lookup on a dict, first binding wins. -/
def dictGet : Doc → String → Option Value
  | [], _ => none
  | (k, v) :: rest, key => if key = k then some v else dictGet rest key

/-- Python `data.get(k)`: the value under `k`, or None when missing. -/
def getNone (d : Doc) (k : String) : Value := (dictGet d k).getD Value.null

/-- Python `data.get(k, dflt)`: the value under `k`, or `dflt` when missing. -/
def getDefault (d : Doc) (k : String) (dflt : Value) : Value :=
  (dictGet d k).getD dflt

/-- Python `a or b`: `a` when truthy, else `b`. -/
def pyOr (a b : Value) : Value := if truthy a then a else b

/-- The normalized record built by `load_content` (content.py lines 19-28):
always has these eight fields. -/
structure WeeklyContent where
  grade6 : Value
  grade7 : Value
  grade8 : Value
  announcements : Value
  events : Value
  achievements : Value
  week : Value
  date : Value

/-- The normalization step of `load_content` (content.py lines 19-28), a
direct transcription of the `out` dict construction. -/
def normalizeDoc (data : Doc) : WeeklyContent :=
  { grade6 := pyOr (getNone data "grade6") (pyOr (getNone data "6th") (Value.list []))
    grade7 := pyOr (getNone data "grade7") (pyOr (getNone data "7th") (Value.list []))
    grade8 := pyOr (getNone data "grade8") (pyOr (getNone data "8th") (Value.list []))
    announcements := getDefault data "announcements" (Value.list [])
    events := getDefault data "events" (Value.list [])
    achievements := getDefault data "achievements" (Value.list [])
    week := pyOr (getNone data "week") (Value.str "This Week")
    date := getNone data "date" }

/-- Process configuration (config.py, `AppConfig`). Field defaults are the
documented environment defaults; the optional API credentials are carried but
unused by the components verified here. -/
structure AppConfig where
  brand_name : String := "Glennallen Panthers"
  primary_color : String := "#000000"
  accent_color : String := "#C8102E"
  assets_dir : String := "assets"
  openai_api_key : Option String := none
  stability_api_key : Option String := none
  replicate_api_token : Option String := none
  pexels_api_key : Option String := none
  pixabay_api_key : Option String := none
  unsplash_access_key : Option String := none
  openclipart_base_url : String := "https://openclipart.org"
  giphy_api_key : Option String := none
  news_api_key : Option String := none
  reddit_client_id : Option String := none
  reddit_client_secret : Option String := none

/-- providers.py, `ImageRequest`. -/
structure ImageRequest where
  prompt : String
  style : Option String := none
  hint : Option String := none

/-- providers.py, `ImageResult`: optional url, optional local path, optional
attribution; all-none signals "no image found". -/
structure ImageResult where
  url : Option String := none
  path : Option String := none
  attribution : Option String := none

/-- providers.py, `LocalProvider`: holds the ordered candidate paths. -/
structure LocalProvider where
  search_paths : List String

/-- providers.py line 27-28: `available` is always True for the local provider. -/
def LocalProvider.available (_self : LocalProvider) : Bool := true

/-- providers.py lines 29-33: the `for p in self.search_paths` loop returns an
ImageResult for the FIRST candidate unconditionally (no disk check), so it is
the head of the list; the trailing `return ImageResult()` handles the empty
list. `req` is never consulted. -/
def LocalProvider.fetch (self : LocalProvider) (_req : ImageRequest) : ImageResult :=
  match self.search_paths with
  | [] => {}
  | p :: _ => { path := some p, attribution := some "Local asset" }

/-- Whether a string's last character is "/". -/
def endsWithSlash (s : String) : Bool :=
  match s.toList.getLast? with
  | some c => c = '/'
  | none => false

/-- Models `str(Path(a) / b)` from pathlib for the cases arising here: an
empty or "." left part disappears, a single trailing slash on the left is
dropped, otherwise the parts are joined with "/". (Repeated slashes inside
`a` are not renormalized by this model.) -/
def pathJoin (a b : String) : String :=
  if a = "" || a = "." then b
  else (if endsWithSlash a then String.mk a.toList.dropLast else a) ++ "/" ++ b

/-- selector.py lines 6-13, `choose_image`: builds the fixed two-element
candidate list under `cfg.assets_dir`, wraps it in a LocalProvider, and
returns that provider's fetch result for a request with the topic as prompt. -/
def choose_image (topic : String) (cfg : AppConfig) : ImageResult :=
  let assets : List String :=
    [ pathJoin (pathJoin (pathJoin cfg.assets_dir "images") "panther") "header.png",
      pathJoin (pathJoin (pathJoin cfg.assets_dir "images") "panther") "badge.png" ]
  let provider : LocalProvider := { search_paths := assets }
  provider.fetch { prompt := topic }

/-- Split a character list on a separator character; like `String.splitOn`
with a one-character separator (adjacent separators give empty groups). -/
def splitChar (sep : Char) : List Char → List (List Char)
  | [] => [[]]
  | c :: rest =>
    let r := splitChar sep rest
    if c = sep then [] :: r
    else
      match r with
      | [] => [[c]]
      | g :: gs => (c :: g) :: gs

/-- Lower-case every character; models Python `str.lower` on ASCII. -/
def lowerStr (s : String) : String := String.mk (s.toList.map Char.toLower)

/-- The final component of a path (pathlib `Path.name`): the part after the
last "/", ignoring empty components from repeated or trailing slashes. -/
def pathName (p : String) : String :=
  String.mk ((((splitChar '/' p.toList).filter (fun s => !s.isEmpty)).getLast?).getD [])

/-- pathlib `Path.suffix`: the extension of the final component, including the
dot; empty when the name has no dot, ends in a dot, or the only dot is the
leading character (hidden files like ".bashrc" have no suffix). -/
def pathSuffix (p : String) : String :=
  let parts := splitChar '.' (pathName p).toList
  let last := (parts.getLast?).getD []
  if 2 ≤ parts.length ∧ last ≠ [] ∧ ¬(parts.length = 2 ∧ (parts.head?).getD [] = []) then
    String.mk ('.' :: last)
  else ""

/-- content.py line 13: the test `p.suffix.lower() in [".yaml", ".yml"]`
selecting the YAML parser; every other extension selects the JSON parser. -/
def isYamlPath (p : String) : Bool :=
  [".yaml", ".yml"].contains (lowerStr (pathSuffix p))

/-- Whitespace as skipped by the JSON grammar. -/
def isWs (c : Char) : Bool := c = ' ' || c = '\t' || c = '\n' || c = '\r'

/-- Drop leading JSON whitespace. -/
def skipWs : List Char → List Char
  | [] => []
  | c :: cs => if isWs c then skipWs cs else c :: cs

/-- Parse the body of a JSON string literal (opening quote already consumed),
handling the common escapes; returns the content and the rest of the input. -/
def parseStrChars : List Char → Option (List Char × List Char)
  | [] => none
  | '"' :: cs => some ([], cs)
  | '\\' :: e :: cs =>
    let dec : Option Char :=
      if e = '"' then some '"'
      else if e = '\\' then some '\\'
      else if e = '/' then some '/'
      else if e = 'n' then some '\n'
      else if e = 't' then some '\t'
      else if e = 'r' then some '\r'
      else none
    match dec with
    | none => none
    | some d => (parseStrChars cs).map (fun r => (d :: r.1, r.2))
  | ['\\'] => none
  | c :: cs => (parseStrChars cs).map (fun r => (c :: r.1, r.2))

/-- Split off the leading run of decimal digits. -/
def parseDigits : List Char → List Char × List Char
  | [] => ([], [])
  | c :: cs =>
    if c.isDigit then
      let r := parseDigits cs
      (c :: r.1, r.2)
    else ([], c :: cs)

/-- Numeric value of a digit run. -/
def digitsVal : List Char → Nat → Nat
  | [], acc => acc
  | c :: cs, acc => digitsVal cs (acc * 10 + (c.toNat - 48))

mutual

/-- Recursive-descent JSON value parser, fuelled for termination. -/
def parseVal : Nat → List Char → Option (Value × List Char)
  | 0, _ => none
  | fuel + 1, cs =>
    match skipWs cs with
    | 'n' :: 'u' :: 'l' :: 'l' :: rest => some (.null, rest)
    | 't' :: 'r' :: 'u' :: 'e' :: rest => some (.bool true, rest)
    | 'f' :: 'a' :: 'l' :: 's' :: 'e' :: rest => some (.bool false, rest)
    | '"' :: rest => (parseStrChars rest).map (fun r => (.str (String.mk r.1), r.2))
    | '[' :: rest =>
      match skipWs rest with
      | ']' :: rest2 => some (.list [], rest2)
      | rest2 => (parseElems fuel rest2).map (fun r => (.list r.1, r.2))
    | '{' :: rest =>
      match skipWs rest with
      | '}' :: rest2 => some (.dict [], rest2)
      | rest2 => (parseMembers fuel rest2).map (fun r => (.dict r.1, r.2))
    | '-' :: rest =>
      match parseDigits rest with
      | ([], _) => none
      | (ds, rest2) => some (.num (-(digitsVal ds 0 : Int)), rest2)
    | c :: rest =>
      if c.isDigit then
        match parseDigits (c :: rest) with
        | (ds, rest2) => some (.num ((digitsVal ds 0 : Nat) : Int), rest2)
      else none
    | [] => none

/-- One-or-more comma-separated array elements, up to the closing bracket. -/
def parseElems : Nat → List Char → Option (List Value × List Char)
  | 0, _ => none
  | fuel + 1, cs => do
    let (v, r) ← parseVal fuel cs
    match skipWs r with
    | ',' :: r2 => (parseElems fuel r2).map (fun t => (v :: t.1, t.2))
    | ']' :: r2 => some ([v], r2)
    | _ => none

/-- One-or-more comma-separated object members, up to the closing brace. -/
def parseMembers : Nat → List Char → Option (List (String × Value) × List Char)
  | 0, _ => none
  | fuel + 1, cs =>
    match skipWs cs with
    | '"' :: rest => do
      let (kcs, r) ← parseStrChars rest
      match skipWs r with
      | ':' :: r2 => do
        let (v, r3) ← parseVal fuel r2
        match skipWs r3 with
        | ',' :: r4 => (parseMembers fuel r4).map (fun t => ((String.mk kcs, v) :: t.1, t.2))
        | '}' :: r4 => some ([(String.mk kcs, v)], r4)
        | _ => none
      | _ => none
    | _ => none

end

/-- Models `json.loads` (Python standard library, external to this repo) on
the JSON subset this program exchanges: null, booleans, integers, strings
with the common escapes, arrays, objects. Floats and unicode escapes are
outside the model; any failure is `none` (JSONDecodeError). The fuel bound
covers every input: each unit of nesting or element consumes input. -/
def jsonLoads (text : String) : Option Value :=
  match parseVal (2 * text.toList.length + 2) text.toList with
  | some (v, rest) => if (skipWs rest).isEmpty then some v else none
  | none => none

/-- Models `yaml.safe_load` (external library) at the fidelity this program
needs: blank input yields None (null); otherwise the JSON-compatible subset
of YAML is parsed (YAML 1.2 is a superset of JSON); YAML-only syntax beyond
that subset is modelled as a parse failure. It never raises a
file-not-found error. -/
def yamlSafeLoad (text : String) : Option Value :=
  if text.toList.all isWs then some Value.null else jsonLoads text

/-- The literal source text of an empty JSON object. -/
def jsonEmptyObject : String := String.mk ['{', '}']

/-- The error classes the load pipeline can raise: FileNotFoundError
(content.py line 11), a parse error from json/yaml (content.py lines 13-16),
or AttributeError when the parsed document is not a dict (so `.get` on it in
lines 20-27 fails). -/
inductive LoadError where
  | fileNotFound (path : String)
  | parseError
  | attributeError
deriving DecidableEq

/-- A filesystem snapshot: a path maps to the text content of the readable
file there, or to none when the path does not exist. -/
abbrev FS : Type := String → Option String

/-- content.py lines 12-16: the parse step of `load_content` — extension
dispatch to `yaml.safe_load(text) or {}` for .yaml/.yml (case-insensitive)
and `json.loads(text or "{}")` for everything else. `none` is a parse
failure. -/
def parseDocText (path text : String) : Option Value :=
  if isYamlPath path then
    (yamlSafeLoad text).map (fun v => pyOr v (Value.dict []))
  else
    jsonLoads (if text = "" then jsonEmptyObject else text)

/-- content.py lines 8-29, `load_content`, over a filesystem snapshot:
existence check (line 11), read, parse by extension, then the `.get`-based
normalization (which requires the parsed document to be a dict: on any other
value `.get` raises AttributeError). -/
def load_content (fs : FS) (path : String) : Except LoadError WeeklyContent :=
  match fs path with
  | none => .error (.fileNotFound path)
  | some text =>
    match parseDocText path text with
    | none => .error .parseError
    | some (Value.dict kvs) => .ok (normalizeDoc kvs)
    | some _ => .error .attributeError

/-- cli.py `generate`, over the filesystem model: load the content, render it
(the jinja2 renderer is external, so it is passed in as a function), create
the output directory (idempotent; directories are not tracked in the file
map), write index.html into the output directory, and report the written
path. A load failure aborts the run before anything is written. -/
def generate (render : WeeklyContent → AppConfig → String) (cfg : AppConfig)
    (fs : FS) (dataPath outDir : String) : FS × Except LoadError String :=
  match load_content fs dataPath with
  | .error e => (fs, .error e)
  | .ok content =>
    let html := render content cfg
    let indexHtml := pathJoin outDir "index.html"
    (fun p => if p = indexHtml then some html else fs p, .ok indexHtml)

/-- Spec-side (for the amended C3): first TRUTHY match wins — the canonical
key's value when present with a truthy value, else the alias key's value
when present and truthy, else the empty sequence. A present key whose value
is falsy (null, False, 0, "", an empty list or dict) is skipped. -/
def firstTruthyGrade (d : Doc) (canon al : String) : Value :=
  match dictGet d canon with
  | some v =>
    if truthy v then v
    else
      match dictGet d al with
      | some w => if truthy w then w else Value.list []
      | none => Value.list []
  | none =>
    match dictGet d al with
    | some w => if truthy w then w else Value.list []
    | none => Value.list []

/-- Whether a value is a sequence (a list). -/
def isSeq : Value → Bool
  | .list _ => true
  | _ => false

/-- The nine top-level keys feeding the six sequence fields. -/
def contentKeys : List String :=
  ["grade6", "6th", "grade7", "7th", "grade8", "8th",
   "announcements", "events", "achievements"]

/-- A key's value is a sequence whenever the key is present. -/
def seqIfPresent (d : Doc) (k : String) : Bool :=
  match dictGet d k with
  | none => true
  | some v => isSeq v

/-- Spec-side (for the amended C10): the alias fallback — the alias key's
value when present and truthy, else the empty sequence. -/
def aliasOrEmpty (d : Doc) (al : String) : Value :=
  match dictGet d al with
  | some w => if truthy w then w else Value.list []
  | none => Value.list []

/-- The fully defaulted record: six empty sequences, the placeholder week
label, no date. -/
def defaultWeekly : WeeklyContent :=
  { grade6 := Value.list [], grade7 := Value.list [], grade8 := Value.list [],
    announcements := Value.list [], events := Value.list [],
    achievements := Value.list [],
    week := Value.str "This Week", date := Value.null }

/-- Spec-side (for C8): the extension family selecting the YAML parser —
".yaml" or ".yml", case-insensitively. -/
def yamlExtension (s : String) : Prop :=
  lowerStr s = ".yaml" ∨ lowerStr s = ".yml"

/-- C1: for every topic string and configuration, choose_image builds the
two-element candidate list (header then badge under
assets_dir/images/panther), hands it to a LocalProvider, and returns that
provider's fetch result — an ImageResult whose path is the header path (the
first candidate), attribution "Local asset", and no url. -/
theorem C1_choose_image_first_candidate (topic : String) (cfg : AppConfig) :
    choose_image topic cfg =
      LocalProvider.fetch
        { search_paths :=
            [ pathJoin (pathJoin (pathJoin cfg.assets_dir "images") "panther") "header.png",
              pathJoin (pathJoin (pathJoin cfg.assets_dir "images") "panther") "badge.png" ] }
        { prompt := topic } ∧
    choose_image topic cfg =
      { url := none,
        path := some (pathJoin (pathJoin (pathJoin cfg.assets_dir "images") "panther") "header.png"),
        attribution := some "Local asset" } :=
  ⟨rfl, rfl⟩

/-- C2: LocalProvider.fetch on a non-empty candidate list returns the FIRST
candidate's path with attribution "Local asset" and no url (fetch consults
no filesystem, so disk existence is irrelevant); on the empty list it
returns the all-empty ImageResult. -/
theorem C2_fetch_head_or_empty (sp : List String) (req : ImageRequest) :
    (∀ p rest, sp = p :: rest →
      LocalProvider.fetch { search_paths := sp } req =
        { url := none, path := some p, attribution := some "Local asset" }) ∧
    (sp = [] →
      LocalProvider.fetch { search_paths := sp } req =
        { url := none, path := none, attribution := none }) := by
  constructor
  · rintro p rest rfl
    rfl
  · rintro rfl
    rfl

/-- Witness for C2: concrete two-element and empty candidate lists. -/
theorem C2_fetch_head_or_empty_witness :
    LocalProvider.fetch { search_paths := ["h.png", "b.png"] } { prompt := "t" } =
      { url := none, path := some "h.png", attribution := some "Local asset" } ∧
    LocalProvider.fetch { search_paths := [] } { prompt := "t" } =
      { url := none, path := none, attribution := none } :=
  ⟨(C2_fetch_head_or_empty ["h.png", "b.png"] { prompt := "t" }).1 "h.png" ["b.png"] rfl,
   (C2_fetch_head_or_empty [] { prompt := "t" }).2 rfl⟩

/-- C7: a document without a week key normalizes with the fixed placeholder
week label "This Week". -/
theorem C7_week_default (d : Doc) (h : dictGet d "week" = none) :
    (normalizeDoc d).week = Value.str "This Week" := by
  simp [normalizeDoc, getNone, pyOr, h, truthy]

/-- Witness for C7: a document carrying only grade data. -/
theorem C7_week_default_witness :
    (normalizeDoc [("grade6", Value.list [Value.str "a"])]).week = Value.str "This Week" :=
  C7_week_default [("grade6", Value.list [Value.str "a"])] rfl

/-- C9: the chosen image does not depend on the topic at all — for any one
configuration, any two topics select the same ImageResult. -/
theorem C9_topic_irrelevant (cfg : AppConfig) (t1 t2 : String) :
    choose_image t1 cfg = choose_image t2 cfg := rfl

/-- The `or`-chain of a grade field agrees with the first-truthy-match
reading: canonical when truthy, else alias when truthy, else []. -/
theorem grade_chain_eq_firstTruthy (d : Doc) (canon al : String) :
    pyOr (getNone d canon) (pyOr (getNone d al) (Value.list [])) =
      firstTruthyGrade d canon al := by
  unfold firstTruthyGrade getNone pyOr
  cases h1 : dictGet d canon with
  | none =>
    cases h2 : dictGet d al with
    | none => simp [truthy]
    | some w => simp [truthy]
  | some v =>
    cases h2 : dictGet d al with
    | none => by_cases hv : truthy v <;> simp [truthy, hv]
    | some w => by_cases hv : truthy v <;> simp [truthy, hv]

/-- C3 counterexample: in the document mapping grade6 to the empty list and
the alias 6th to ["x"], the canonical key grade6 IS present, yet the
normalized grade6 field is not its value (the empty list): the falsy
canonical value loses to the alias, refuting canonical-whenever-present
priority. -/
theorem C3_counterexample :
    dictGet [("grade6", Value.list []), ("6th", Value.list [Value.str "x"])] "grade6" =
        some (Value.list []) ∧
    (normalizeDoc [("grade6", Value.list []), ("6th", Value.list [Value.str "x"])]).grade6 ≠
        Value.list [] := by
  refine ⟨rfl, ?_⟩
  show Value.list [Value.str "x"] ≠ Value.list []
  simp

/-- C3 (amended): for every parsed document and each grade pair, the
normalized grade field is the FIRST TRUTHY match — the canonical key's value
when present and truthy, else the alias key's value when present and truthy,
else the empty sequence. -/
theorem C3_grade_first_truthy_priority (d : Doc) :
    (normalizeDoc d).grade6 = firstTruthyGrade d "grade6" "6th" ∧
    (normalizeDoc d).grade7 = firstTruthyGrade d "grade7" "7th" ∧
    (normalizeDoc d).grade8 = firstTruthyGrade d "grade8" "8th" :=
  ⟨grade_chain_eq_firstTruthy d "grade6" "6th",
   grade_chain_eq_firstTruthy d "grade7" "7th",
   grade_chain_eq_firstTruthy d "grade8" "8th"⟩

/-- C4: a document supplying a value under a canonical grade key and the
otherwise-identical document supplying it under the corresponding alias key
(neither key occurring elsewhere in the document) normalize to identical
records, for each of the three grade pairs. -/
theorem C4_canonical_alias_interchangeable (d : Doc) (v : Value) :
    (dictGet d "grade6" = none → dictGet d "6th" = none →
      normalizeDoc (("grade6", v) :: d) = normalizeDoc (("6th", v) :: d)) ∧
    (dictGet d "grade7" = none → dictGet d "7th" = none →
      normalizeDoc (("grade7", v) :: d) = normalizeDoc (("7th", v) :: d)) ∧
    (dictGet d "grade8" = none → dictGet d "8th" = none →
      normalizeDoc (("grade8", v) :: d) = normalizeDoc (("8th", v) :: d)) := by
  refine ⟨fun h1 h2 => ?_, fun h1 h2 => ?_, fun h1 h2 => ?_⟩ <;>
    simp [normalizeDoc, getNone, getDefault, dictGet, h1, h2, pyOr, truthy]

/-- Witness for C4: the value ["a"] supplied under each canonical key versus
under each alias key, over a base document containing only a week label. -/
theorem C4_canonical_alias_interchangeable_witness :
    normalizeDoc [("grade6", Value.list [Value.str "a"]), ("week", Value.str "W1")] =
      normalizeDoc [("6th", Value.list [Value.str "a"]), ("week", Value.str "W1")] ∧
    normalizeDoc [("grade7", Value.list [Value.str "a"]), ("week", Value.str "W1")] =
      normalizeDoc [("7th", Value.list [Value.str "a"]), ("week", Value.str "W1")] ∧
    normalizeDoc [("grade8", Value.list [Value.str "a"]), ("week", Value.str "W1")] =
      normalizeDoc [("8th", Value.list [Value.str "a"]), ("week", Value.str "W1")] :=
  ⟨(C4_canonical_alias_interchangeable [("week", Value.str "W1")]
      (Value.list [Value.str "a"])).1 rfl rfl,
   (C4_canonical_alias_interchangeable [("week", Value.str "W1")]
      (Value.list [Value.str "a"])).2.1 rfl rfl,
   (C4_canonical_alias_interchangeable [("week", Value.str "W1")]
      (Value.list [Value.str "a"])).2.2 rfl rfl⟩

/-- The pyOr fallback of a grade chain agrees with the alias-or-empty
reading. -/
theorem pyOr_getNone_eq_aliasOrEmpty (d : Doc) (al : String) :
    pyOr (getNone d al) (Value.list []) = aliasOrEmpty d al := by
  unfold pyOr getNone aliasOrEmpty
  cases h : dictGet d al with
  | none => simp [truthy]
  | some w => simp

/-- C10 counterexample: with grade6 mapped to an explicit null and the alias
6th mapped to ["y"], the null grade value is NOT replaced by the
empty-sequence default — the alias's value wins instead. -/
theorem C10_counterexample :
    dictGet [("grade6", Value.null), ("6th", Value.list [Value.str "y"])] "grade6" =
        some Value.null ∧
    (normalizeDoc [("grade6", Value.null), ("6th", Value.list [Value.str "y"])]).grade6 ≠
        Value.list [] := by
  refine ⟨rfl, ?_⟩
  show Value.list [Value.str "y"] ≠ Value.list []
  simp

/-- C10 (amended): an explicit null under announcements, events or
achievements passes through to the record unchanged; a falsy (e.g. null)
value under a canonical grade key falls through to the alias key's value
when that is truthy, and to the empty sequence only otherwise; a falsy week
value is replaced by the "This Week" placeholder. -/
theorem C10_null_passthrough_falsy_fallback (d : Doc) :
    (dictGet d "announcements" = some Value.null →
      (normalizeDoc d).announcements = Value.null) ∧
    (dictGet d "events" = some Value.null → (normalizeDoc d).events = Value.null) ∧
    (dictGet d "achievements" = some Value.null →
      (normalizeDoc d).achievements = Value.null) ∧
    (truthy (getNone d "grade6") = false → (normalizeDoc d).grade6 = aliasOrEmpty d "6th") ∧
    (truthy (getNone d "grade7") = false → (normalizeDoc d).grade7 = aliasOrEmpty d "7th") ∧
    (truthy (getNone d "grade8") = false → (normalizeDoc d).grade8 = aliasOrEmpty d "8th") ∧
    (truthy (getNone d "week") = false → (normalizeDoc d).week = Value.str "This Week") := by
  refine ⟨fun h => ?_, fun h => ?_, fun h => ?_, fun h => ?_, fun h => ?_, fun h => ?_,
    fun h => ?_⟩
  · simp [normalizeDoc, getDefault, h]
  · simp [normalizeDoc, getDefault, h]
  · simp [normalizeDoc, getDefault, h]
  · rw [show (normalizeDoc d).grade6 =
        pyOr (getNone d "grade6") (pyOr (getNone d "6th") (Value.list [])) from rfl,
      pyOr, if_neg (by simp [h]), pyOr_getNone_eq_aliasOrEmpty]
  · rw [show (normalizeDoc d).grade7 =
        pyOr (getNone d "grade7") (pyOr (getNone d "7th") (Value.list [])) from rfl,
      pyOr, if_neg (by simp [h]), pyOr_getNone_eq_aliasOrEmpty]
  · rw [show (normalizeDoc d).grade8 =
        pyOr (getNone d "grade8") (pyOr (getNone d "8th") (Value.list [])) from rfl,
      pyOr, if_neg (by simp [h]), pyOr_getNone_eq_aliasOrEmpty]
  · rw [show (normalizeDoc d).week =
        pyOr (getNone d "week") (Value.str "This Week") from rfl,
      pyOr, if_neg (by simp [h])]

/-- Witness for C10: a document with explicit nulls under announcements,
events, achievements, grade6 and week, and the alias 6th carrying ["y"]. -/
theorem C10_null_passthrough_falsy_fallback_witness :
    (normalizeDoc [("announcements", Value.null), ("events", Value.null),
        ("achievements", Value.null), ("grade6", Value.null),
        ("6th", Value.list [Value.str "y"]), ("week", Value.null)]).announcements =
      Value.null ∧
    (normalizeDoc [("announcements", Value.null), ("events", Value.null),
        ("achievements", Value.null), ("grade6", Value.null),
        ("6th", Value.list [Value.str "y"]), ("week", Value.null)]).grade6 =
      aliasOrEmpty [("announcements", Value.null), ("events", Value.null),
        ("achievements", Value.null), ("grade6", Value.null),
        ("6th", Value.list [Value.str "y"]), ("week", Value.null)] "6th" ∧
    (normalizeDoc [("announcements", Value.null), ("events", Value.null),
        ("achievements", Value.null), ("grade6", Value.null),
        ("6th", Value.list [Value.str "y"]), ("week", Value.null)]).week =
      Value.str "This Week" :=
  ⟨(C10_null_passthrough_falsy_fallback _).1 rfl,
   (C10_null_passthrough_falsy_fallback _).2.2.2.1 rfl,
   (C10_null_passthrough_falsy_fallback _).2.2.2.2.2.2 rfl⟩

/-- A value recognized as a sequence is a list. -/
theorem eq_list_of_isSeq (b : Value) (hb : isSeq b = true) : ∃ xs, b = Value.list xs := by
  cases b <;> first | exact ⟨_, rfl⟩ | simp [isSeq] at hb

/-- `b or []` is a sequence whenever `b` is a sequence or null. -/
theorem isSeq_pyOr_emptyList (b : Value) (hb : isSeq b = true ∨ b = Value.null) :
    isSeq (pyOr b (Value.list [])) = true := by
  unfold pyOr
  rcases hb with hb | rfl
  · obtain ⟨xs, rfl⟩ := eq_list_of_isSeq b hb
    by_cases h : truthy (Value.list xs) <;> simp [h, isSeq]
  · simp [truthy, isSeq]

/-- A whole grade `or`-chain is a sequence whenever both source values are
sequences or null. -/
theorem isSeq_grade_chain (a b : Value) (ha : isSeq a = true ∨ a = Value.null)
    (hb : isSeq b = true ∨ b = Value.null) :
    isSeq (pyOr a (pyOr b (Value.list []))) = true := by
  have hpb := isSeq_pyOr_emptyList b hb
  rcases ha with ha | rfl
  · obtain ⟨xs, rfl⟩ := eq_list_of_isSeq a ha
    by_cases h : truthy (Value.list xs)
    · rw [pyOr, if_pos h]
      exact ha
    · rw [pyOr, if_neg (by simp [h])]
      exact hpb
  · rw [pyOr, if_neg (by simp [truthy])]
    exact hpb

/-- When every present occurrence of a key holds a sequence, the looked-up
value is a sequence or the null placeholder for a missing key. -/
theorem getNone_seq_or_null (d : Doc) (k : String) (h : seqIfPresent d k = true) :
    isSeq (getNone d k) = true ∨ getNone d k = Value.null := by
  unfold seqIfPresent at h
  unfold getNone
  cases e : dictGet d k with
  | none => right; rfl
  | some v =>
    left
    rw [e] at h
    simpa using h

/-- When every present occurrence of a key holds a sequence, the
defaulted-to-[] lookup is a sequence. -/
theorem getDefault_seq (d : Doc) (k : String) (h : seqIfPresent d k = true) :
    isSeq (getDefault d k (Value.list [])) = true := by
  unfold seqIfPresent at h
  unfold getDefault
  cases e : dictGet d k with
  | none => rfl
  | some v =>
    rw [e] at h
    simpa using h

/-- C5 counterexample: the accepted document mapping announcements to an
explicit null normalizes to a record whose announcements field is null — not
a (possibly empty) sequence — so the as-stated "each a possibly empty
sequence" fails. -/
theorem C5_counterexample :
    ¬ (isSeq (normalizeDoc [("announcements", Value.null)]).grade6 = true ∧
       isSeq (normalizeDoc [("announcements", Value.null)]).grade7 = true ∧
       isSeq (normalizeDoc [("announcements", Value.null)]).grade8 = true ∧
       isSeq (normalizeDoc [("announcements", Value.null)]).announcements = true ∧
       isSeq (normalizeDoc [("announcements", Value.null)]).events = true ∧
       isSeq (normalizeDoc [("announcements", Value.null)]).achievements = true) := by
  decide

/-- C5 (amended): for every accepted document whose values under the grade
keys (canonical or alias), announcements, events and achievements keys are
sequences wherever those keys are present, the normalized record's six
sequence fields are all (possibly empty) sequences — and all six fields
exist on every record by construction. -/
theorem C5_six_fields_sequences (d : Doc)
    (h : ∀ k ∈ contentKeys, seqIfPresent d k = true) :
    isSeq (normalizeDoc d).grade6 = true ∧
    isSeq (normalizeDoc d).grade7 = true ∧
    isSeq (normalizeDoc d).grade8 = true ∧
    isSeq (normalizeDoc d).announcements = true ∧
    isSeq (normalizeDoc d).events = true ∧
    isSeq (normalizeDoc d).achievements = true := by
  refine ⟨?_, ?_, ?_, ?_, ?_, ?_⟩
  · exact isSeq_grade_chain _ _
      (getNone_seq_or_null d "grade6" (h "grade6" (by simp [contentKeys])))
      (getNone_seq_or_null d "6th" (h "6th" (by simp [contentKeys])))
  · exact isSeq_grade_chain _ _
      (getNone_seq_or_null d "grade7" (h "grade7" (by simp [contentKeys])))
      (getNone_seq_or_null d "7th" (h "7th" (by simp [contentKeys])))
  · exact isSeq_grade_chain _ _
      (getNone_seq_or_null d "grade8" (h "grade8" (by simp [contentKeys])))
      (getNone_seq_or_null d "8th" (h "8th" (by simp [contentKeys])))
  · exact getDefault_seq d "announcements" (h "announcements" (by simp [contentKeys]))
  · exact getDefault_seq d "events" (h "events" (by simp [contentKeys]))
  · exact getDefault_seq d "achievements" (h "achievements" (by simp [contentKeys]))

/-- Witness for C5: a document using one canonical key, one alias key and an
explicit empty announcements sequence. -/
theorem C5_six_fields_sequences_witness :
    (∀ k ∈ contentKeys, seqIfPresent
      [("grade6", Value.list [Value.str "a"]), ("7th", Value.list []),
       ("announcements", Value.list [])] k = true) ∧
    (isSeq (normalizeDoc [("grade6", Value.list [Value.str "a"]), ("7th", Value.list []),
       ("announcements", Value.list [])]).grade6 = true ∧
     isSeq (normalizeDoc [("grade6", Value.list [Value.str "a"]), ("7th", Value.list []),
       ("announcements", Value.list [])]).grade7 = true ∧
     isSeq (normalizeDoc [("grade6", Value.list [Value.str "a"]), ("7th", Value.list []),
       ("announcements", Value.list [])]).grade8 = true ∧
     isSeq (normalizeDoc [("grade6", Value.list [Value.str "a"]), ("7th", Value.list []),
       ("announcements", Value.list [])]).announcements = true ∧
     isSeq (normalizeDoc [("grade6", Value.list [Value.str "a"]), ("7th", Value.list []),
       ("announcements", Value.list [])]).events = true ∧
     isSeq (normalizeDoc [("grade6", Value.list [Value.str "a"]), ("7th", Value.list []),
       ("announcements", Value.list [])]).achievements = true) :=
  ⟨by decide, C5_six_fields_sequences _ (by decide)⟩

/-- If the path exists, load_content never raises the file-not-found error
(it can still fail, but only with a parse or attribute error). -/
theorem load_content_exists_not_notFound (fs : FS) (path text : String)
    (e : fs path = some text) :
    load_content fs path ≠ Except.error (LoadError.fileNotFound path) := by
  unfold load_content
  simp only [e]
  cases hp : parseDocText path text with
  | none => simp
  | some v => cases v <;> simp

/-- C6: load_content fails with the file-not-found error exactly when the
path is absent from the filesystem snapshot; and on a missing path the whole
generate pipeline returns that error with no content and leaves the
filesystem unchanged — no output is written. -/
theorem C6_notFound_iff_missing (render : WeeklyContent → AppConfig → String)
    (cfg : AppConfig) (fs : FS) (path outDir : String) :
    (load_content fs path = Except.error (LoadError.fileNotFound path) ↔
      fs path = none) ∧
    (fs path = none →
      generate render cfg fs path outDir =
        (fs, Except.error (LoadError.fileNotFound path))) := by
  have hload : fs path = none →
      load_content fs path = Except.error (LoadError.fileNotFound path) := by
    intro h
    unfold load_content
    rw [h]
  constructor
  · constructor
    · intro h
      cases e : fs path with
      | none => rfl
      | some text => exact absurd h (load_content_exists_not_notFound fs path text e)
    · exact hload
  · intro h
    unfold generate
    rw [hload h]

/-- Witness for C6: the empty filesystem and a concrete path. -/
theorem C6_notFound_iff_missing_witness :
    (load_content (fun _ => none) "week.yaml" =
        Except.error (LoadError.fileNotFound "week.yaml") ↔
      (fun _ => none : FS) "week.yaml" = none) ∧
    generate (fun _ _ => "") {} (fun _ => none) "week.yaml" "out" =
      ((fun _ => none : FS), Except.error (LoadError.fileNotFound "week.yaml")) :=
  ⟨(C6_notFound_iff_missing (fun _ _ => "") {} (fun _ => none) "week.yaml" "out").1,
   (C6_notFound_iff_missing (fun _ _ => "") {} (fun _ => none) "week.yaml" "out").2 rfl⟩

/-- C8: the parser choice is by extension — a suffix lowering to ".yaml" or
".yml" selects the YAML parser, every other extension the JSON one — and an
existing input file with empty content loads successfully under either
parser to the fully defaulted record (six empty sequences, the placeholder
week, no date). -/
theorem C8_empty_file_fully_defaulted (fs : FS) (path : String) :
    (isYamlPath path = true ↔ yamlExtension (pathSuffix path)) ∧
    (fs path = some "" → load_content fs path = Except.ok defaultWeekly) := by
  constructor
  · unfold isYamlPath yamlExtension
    simp [List.contains]
  · intro h
    have hp : parseDocText path "" = some (Value.dict []) := by
      unfold parseDocText
      by_cases hy : isYamlPath path
      · rw [if_pos hy]
        rfl
      · rw [if_neg hy]
        rfl
    unfold load_content
    simp only [h, hp]
    rfl

/-- Witness for C8: the all-empty-files filesystem, once with an upper-case
YAML extension and once with a JSON extension. -/
theorem C8_empty_file_fully_defaulted_witness :
    load_content (fun _ => some "") "data/week.YAML" = Except.ok defaultWeekly ∧
    load_content (fun _ => some "") "data/week.json" = Except.ok defaultWeekly :=
  ⟨(C8_empty_file_fully_defaulted (fun _ => some "") "data/week.YAML").2 rfl,
   (C8_empty_file_fully_defaulted (fun _ => some "") "data/week.json").2 rfl⟩

end Newsletter
